import Mathlib

/-!
Verification development for the FPBE notification service.

Shallow embedding of `src/backend/notification-service`:
* `models/notification.py` — `NotificationStatus`, `Notification`,
  `validate_transition`, `update_status`;
* `services/email_service.py` — `RateLimiter.acquire`, `EmailService.send_email`;
* `services/push_notification.py` — device registration, APNS/FCM fan-out,
  token blacklisting;
* `utils/templates.py` — context sanitization and strict rendering;
* `app.py` — final-status aggregation (whose body is a stub in the source and
  is therefore modelled from the specification where noted).

Machine timestamps are modelled as natural numbers (seconds); Python dicts
with string keys are modelled as insertion-ordered association lists.
-/

namespace FPBE

/-- Notification delivery status values, from `models/notification.py`
(`NotificationStatus`). -/
inductive NotificationStatus where
  | pending
  | sent
  | delivered
  | read
  | failed
deriving DecidableEq, Repr, Fintype

/-- Notification types, from `models/notification.py` (`NotificationType`). -/
inductive NotificationType where
  | transaction_alert
  | security_alert
  | mining_update
  | marketing
  | system_update
deriving DecidableEq, Repr, Fintype

/-- The per-status list of allowed successor statuses: the
`valid_transitions` dict literal inside
`NotificationStatus.validate_transition`. -/
def valid_transitions : NotificationStatus → List NotificationStatus
  | .pending => [.sent, .failed]
  | .sent => [.delivered, .failed]
  | .delivered => [.read, .failed]
  | .read => [.failed]
  | .failed => []

/-- `NotificationStatus.validate_transition(current, new)`:
`new in valid_transitions.get(current, [])`. -/
def validate_transition (current new : NotificationStatus) : Bool :=
  (valid_transitions current).contains new

/-- One Python-dict entry update: existing keys are overwritten in place,
a missing key is appended at the end (insertion-order semantics of
`dict.__setitem__`). -/
def dict_set : List (String × String) → String → String → List (String × String)
  | [], k, v => [(k, v)]
  | p :: d, k, v =>
    if p.1 == k then (k, v) :: dict_set d k v else p :: dict_set d k v

/-- `base.update(patch)` on Python dicts: apply `dict_set` for each entry of
the patch in order. -/
def dict_update (base patch : List (String × String)) : List (String × String) :=
  patch.foldl (fun acc kv => dict_set acc kv.1 kv.2) base

/-- First-match lookup in an association list (`d[k]` on a Python dict). -/
def dict_get (d : List (String × String)) (k : String) : Option String :=
  (d.find? (fun p => p.1 == k)).map (fun p => p.2)

/-- Core notification model, from `models/notification.py` (`Notification`).
`delivery_info` is a string-keyed dict with merge semantics. -/
structure Notification where
  id : String
  user_id : String
  ntype : NotificationType
  title : String
  message : String
  status : NotificationStatus
  created_at : Nat
  sent_at : Option Nat
  delivered_at : Option Nat
  read_at : Option Nat
  error_message : Option String
  delivery_info : List (String × String)
deriving DecidableEq, Repr

/-- The timestamp/error bookkeeping of `Notification.update_status` after the
transition check passed: stamps `sent_at`/`delivered_at`, sets
`error_message` on failure. -/
def apply_status_effects (n : Notification) (status : NotificationStatus)
    (error_message : Option String) (now : Nat) : Notification :=
  if status = NotificationStatus.sent then { n with sent_at := some now }
  else if status = NotificationStatus.delivered then { n with delivered_at := some now }
  else if status = NotificationStatus.failed then { n with error_message := error_message }
  else n

/-- The `if delivery_info: self.delivery_info.update(delivery_info)` step of
`Notification.update_status` (`None` and the empty dict are both falsy). -/
def apply_delivery_info (n : Notification)
    (delivery_info : Option (List (String × String))) : Notification :=
  match delivery_info with
  | some d =>
    if d.isEmpty then n
    else { n with delivery_info := dict_update n.delivery_info d }
  | none => n

/-- `Notification.update_status(status, error_message, delivery_info)`.
The transition is validated before any field is mutated; an invalid
transition raises (second component `some msg`) and leaves the notification
exactly as it was. -/
def update_status (n : Notification) (status : NotificationStatus)
    (error_message : Option String) (delivery_info : Option (List (String × String)))
    (now : Nat) : Notification × Option String :=
  if validate_transition n.status status then
    (apply_delivery_info
      (apply_status_effects { n with status := status } status error_message now)
      delivery_info,
     none)
  else
    (n, some "InvalidStateTransition")

/-- Sliding-window rate limiter state, from `email_service.py`
(`RateLimiter.__init__`): `max_per_hour`, `max_burst`, `window_size` (always
3600 in the source) and the recorded request timestamps. -/
structure RateLimiter where
  max_per_hour : Nat
  max_burst : Nat
  window_size : Nat
  requests : List Nat
deriving DecidableEq, Repr

/-- `RateLimiter.acquire`: prune entries older than the window, deny when the
pruned count reaches `max_per_hour`, then deny when the count of pruned
entries NOT in the last 60 seconds (`len(requests) - len(recent)`) reaches
`max_burst`, otherwise append the current timestamp and allow. -/
def acquire (s : RateLimiter) (now : Nat) : Bool × RateLimiter :=
  let pruned := s.requests.filter (fun ts => now - ts ≤ s.window_size)
  if s.max_per_hour ≤ pruned.length then
    (false, { s with requests := pruned })
  else if s.max_burst ≤ pruned.length - (pruned.filter (fun ts => now - ts ≤ 60)).length then
    (false, { s with requests := pruned })
  else
    (true, { s with requests := pruned ++ [now] })

/-- Run `acquire` over a sequence of call times, collecting the returned
booleans and threading the limiter state. -/
def acquireSeq : RateLimiter → List Nat → List Bool × RateLimiter
  | s, [] => ([], s)
  | s, t :: ts =>
    let p := acquire s t
    let q := acquireSeq p.2 ts
    (p.1 :: q.1, q.2)

/-- Control-flow skeleton of `EmailService.send_email`.  The environment is
abstracted by its observable effects on the call:
`valid_address` — whether `validate_email` accepts (it raises
`EmailNotValidError` otherwise, which the sender catches and turns into
`False`); `rate_allowed` — the result of `RateLimiter.acquire` for the
recipient (denial returns `False`); `render_result` — rendering either
produces content or raises (any exception other than `EmailNotValidError`
reaches the final generic handler, which logs, records the failure and
RE-RAISES for the `tenacity` retry decorator); `sendgrid_success` /
`smtp_success` — the booleans returned by `_send_via_sendgrid` and
`_send_via_smtp`, which catch their own provider exceptions internally.
`Except.error` models an exception escaping `send_email`. -/
def send_email (valid_address : Bool) (rate_allowed : Bool)
    (render_result : Except String String)
    (sendgrid_success : Bool) (smtp_success : Bool) : Except String Bool :=
  if valid_address = false then Except.ok false
  else if rate_allowed = false then Except.ok false
  else
    match render_result with
    | Except.error e => Except.error e
    | Except.ok _ =>
      if sendgrid_success then Except.ok true
      else if smtp_success then Except.ok true
      else Except.ok false

/-! ### Push notification service (`services/push_notification.py`) -/

/-- One stored device-token record (the JSON blob kept under
`device_tokens:{user_id}` in Redis); registration timestamps are omitted as
no claim mentions them. -/
structure TokenData where
  token : String
  platform : String
  status : String
deriving DecidableEq, Repr

/-- The Redis-held state the push service reads and writes: per-user device
token lists (head = most recently pushed) and the per-platform blacklist
sets `blacklisted_tokens:ios` / `blacklisted_tokens:android`. -/
structure PushState where
  device_tokens : List (String × List TokenData)
  blacklist_ios : List String
  blacklist_android : List String
deriving DecidableEq, Repr

/-- `lrange(device_tokens:{user}, 0, -1)`. -/
def user_tokens (st : PushState) (user : String) : List TokenData :=
  match st.device_tokens.find? (fun p => p.1 == user) with
  | some p => p.2
  | none => []

/-- Replace the token list of a user in the store. -/
def set_user_tokens (st : PushState) (user : String) (recs : List TokenData) :
    PushState :=
  if st.device_tokens.any (fun p => p.1 == user) then
    { st with device_tokens :=
        st.device_tokens.map (fun p => if p.1 == user then (user, recs) else p) }
  else
    { st with device_tokens := st.device_tokens ++ [(user, recs)] }

/-- `PushNotificationService.register_device`: an invalid platform raises
`ValueError` (caught, returning `False`); a token found in the platform
blacklist is refused; otherwise the list is trimmed to its last 4 entries
when it already holds 5 or more (`ltrim(key, -4, -1)`) and the new record is
pushed at the head (`lpush`). -/
def register_device (st : PushState) (user token platform : String) :
    Bool × PushState :=
  if platform != "ios" && platform != "android" then (false, st)
  else if (if platform == "ios" then st.blacklist_ios else st.blacklist_android).contains token then
    (false, st)
  else
    let recs := user_tokens st user
    let recs := if 5 ≤ recs.length then recs.drop (recs.length - 4) else recs
    (true, set_user_tokens st user (⟨token, platform, "active"⟩ :: recs))

/-- Deterministic abstraction of one APNS delivery attempt for a token:
accepted, rejected with `BadDeviceToken`, or failing with some other
exception (which `_send_apns` retries up to `_max_retries` times before
recording a failure). -/
inductive ApnsReply where
  | delivered
  | badToken
  | transientError (e : String)

/-- One entry of the `results` list built by `_send_apns`. -/
structure TokenResult where
  token : String
  success : Bool
deriving DecidableEq, Repr

/-- The per-token loop body of `PushNotificationService._send_apns`: a
`BadDeviceToken` response `sadd`s the token to `blacklisted_tokens:ios` and
stops retrying that token; with a deterministic provider the retry loop for
other errors exhausts and records a failure. -/
def send_apns_token (bl : List String) (provider : String → ApnsReply)
    (t : String) : TokenResult × List String :=
  match provider t with
  | ApnsReply.delivered => (⟨t, true⟩, bl)
  | ApnsReply.badToken => (⟨t, false⟩, t :: bl)
  | ApnsReply.transientError _ => (⟨t, false⟩, bl)

/-- `PushNotificationService._send_apns` over a token list: per-token results,
the updated ios blacklist, and the aggregate
`response_data["success"] = any(r["success"] for r in results)`.
Note the given token list is sent as-is — the blacklist is written, never
consulted, on the send path. -/
def send_apns (bl : List String) (provider : String → ApnsReply) :
    List String → List TokenResult × List String × Bool
  | [] => ([], bl, false)
  | t :: ts =>
    let p := send_apns_token bl provider t
    let q := send_apns p.2 provider ts
    (p.1 :: q.1, q.2.1, p.1.success || q.2.2)

/-- Whether the abstract APNS provider accepts a given token (the success
criterion of one entry of the `_send_apns` results). -/
def apns_delivered (provider : String → ApnsReply) (t : String) : Bool :=
  match provider t with
  | ApnsReply.delivered => true
  | _ => false

/-- `PushNotificationService._send_fcm`: one multicast over the first
`_batch_size = 500` tokens; the provider reports per-token success;
`success = batch_response.success_count > 0`; every failed token is `sadd`ed
to `blacklisted_tokens:android`. -/
def send_fcm (bl : List String) (provider : String → Bool)
    (tokens : List String) : Bool × List String :=
  let batch := tokens.take 500
  (batch.any (fun t => provider t),
   bl ++ (batch.filter (fun t => !provider t)).map (fun t => t))

/-- The token-selection step of `PushNotificationService.send_notification`:
records with `status == "active"` are grouped by platform; `"android"` goes
to FCM and every other platform value to APNS. -/
def select_android_tokens (recs : List TokenData) : List String :=
  (recs.filter (fun r => r.status == "active" && r.platform == "android")).map
    (fun r => r.token)

/-- The iOS side of the same grouping. -/
def select_ios_tokens (recs : List TokenData) : List String :=
  (recs.filter (fun r => r.status == "active" && r.platform != "android")).map
    (fun r => r.token)

/-- The iOS leg of `PushNotificationService.send_notification`: select the
active iOS tokens of the user from the store (the blacklist is not consulted) and
run `_send_apns` over them, persisting the blacklist it produces. -/
def push_send_ios (st : PushState) (provider : String → ApnsReply)
    (user : String) : List TokenResult × PushState :=
  let ios := select_ios_tokens (user_tokens st user)
  let r := send_apns st.blacklist_ios provider ios
  (r.1, { st with blacklist_ios := r.2.1 })

/-- `PushNotificationService.send_notification`: reads the token list of the user
(failing the notification when it is empty), fans out to FCM and APNS per
platform, and aggregates `success = True`, then
`success = success and fcm_success` when there are Android tokens and
`success = success and apns_success` when there are iOS tokens; the
notification is marked `sent` on aggregate success and `failed` with
"Partial or complete delivery failure" otherwise. -/
def send_notification_push (st : PushState) (fcm_provider : String → Bool)
    (apns_provider : String → ApnsReply) (n : Notification) (now : Nat) :
    Bool × PushState × Notification :=
  let recs := user_tokens st n.user_id
  if recs.isEmpty then
    let u := update_status n NotificationStatus.failed (some "No registered devices") none now
    (false, st, u.1)
  else
    let android := select_android_tokens recs
    let ios := select_ios_tokens recs
    let fcm := if android.isEmpty then (true, st.blacklist_android)
               else send_fcm st.blacklist_android fcm_provider android
    let apns := if ios.isEmpty then ([], st.blacklist_ios, true)
                else send_apns st.blacklist_ios apns_provider ios
    let success := (android.isEmpty || fcm.1) && (ios.isEmpty || apns.2.2)
    let dinfo :=
      (if android.isEmpty then [] else
        [("fcm", if fcm.1 then "success" else "failure")]) ++
      (if ios.isEmpty then [] else
        [("apns", if apns.2.2 then "success" else "failure")])
    let st := { st with blacklist_android := fcm.2, blacklist_ios := apns.2.1 }
    if success then
      (true, st, (update_status n NotificationStatus.sent none (some dinfo) now).1)
    else
      (false, st, (update_status n NotificationStatus.failed
        (some "Partial or complete delivery failure") (some dinfo) now).1)

/-! ### Template rendering (`utils/templates.py`) -/

/-- A parsed template: literal text interleaved with variable references
(the fragment of Jinja2 syntax the notification templates use). -/
inductive TemplatePart where
  | lit (s : String)
  | var (v : String)
deriving DecidableEq, Repr

/-- A context value: a string, Python `None`, or a callable (dropped by
sanitization). -/
inductive CtxValue where
  | str (s : String)
  | nullV
  | callable
deriving DecidableEq, Repr

/-- `k.startswith('_')` for the one-character reserved prefix: the first
character of the key is an underscore. -/
def starts_with_underscore (k : String) : Bool :=
  match k.data with
  | [] => false
  | c :: _ => c == '_'

/-- `NotificationTemplateManager._sanitize_context`: drop entries whose key
starts with `_` or whose value is callable, then inject the required keys
`user_id` and `timestamp` as `None` when absent. -/
def sanitize_context (ctx : List (String × CtxValue)) : List (String × CtxValue) :=
  let s := ctx.filter (fun kv =>
    !starts_with_underscore kv.1 && !(kv.2 == CtxValue.callable))
  let s := if s.any (fun kv => kv.1 == "user_id") then s
           else s ++ [("user_id", CtxValue.nullV)]
  if s.any (fun kv => kv.1 == "timestamp") then s
  else s ++ [("timestamp", CtxValue.nullV)]

/-- String conversion of a context value during template output
(Python `str()`; `None` prints as `"None"`). -/
def ctx_value_str : CtxValue → String
  | CtxValue.str s => s
  | CtxValue.nullV => "None"
  | CtxValue.callable => "<callable>"

/-- Jinja2 rendering under the `StrictUndefined` handler the manager installs
(`Environment(undefined=StrictUndefined, ...)`): emitting a variable that is
absent from the context calls `Undefined.__str__`, whose override raises
`SecurityError("Undefined template variable: ...")` instead of substituting
empty text. -/
def render_parts (ctx : List (String × CtxValue)) :
    List TemplatePart → Except String String
  | [] => Except.ok ""
  | TemplatePart.lit s :: rest =>
    (render_parts ctx rest).map (fun r => s ++ r)
  | TemplatePart.var v :: rest =>
    match ctx.find? (fun kv => kv.1 == v) with
    | none => Except.error ("Undefined template variable: " ++ v)
    | some kv => (render_parts ctx rest).map (fun r => ctx_value_str kv.2 ++ r)

/-- `NotificationTemplateManager.render_template` restricted to the rendering
step the claims concern: sanitize the context, then render strictly.
(Template-path resolution and caching do not affect strictness and are
omitted; a raised `SecurityError` is logged and re-raised, so it still
escapes `render_template`.) -/
def render_template (ctx : List (String × CtxValue))
    (tmpl : List TemplatePart) : Except String String :=
  render_parts (sanitize_context ctx) tmpl

/-! ### Delivery orchestrator (`app.py`) -/

/-- The classified result of `determine_final_status` as §4.5 of the
specification describes it: a final notification status, whether the
`delivery_info.partial` flag is to be set, and an aggregated error message
for complete failure. -/
structure FinalStatusResult where
  status : NotificationStatus
  partialFlag : Bool
  error_message : Option String
deriving DecidableEq, Repr

/-- Modelled from the spec: the body of `determine_final_status` in `app.py`
is a `pass` stub, so the decision is taken from §4.5: all channels
successful → `sent` with no partial flag; mixed success and failure →
`sent` with the partial flag; all failed → `failed` with an aggregated
error message naming the failed channels.  A channel outcome is the status
string recorded in `delivery_statuses`; `"sent"` counts as success. -/
def determine_final_status (outcomes : List (String × String)) :
    FinalStatusResult :=
  if outcomes.all (fun o => o.2 == "sent") then
    ⟨NotificationStatus.sent, false, none⟩
  else if outcomes.any (fun o => o.2 == "sent") then
    ⟨NotificationStatus.sent, true, none⟩
  else
    ⟨NotificationStatus.failed, false,
     some ("All channels failed: " ++
       String.intercalate ", " (outcomes.map (fun o => o.1)))⟩

/-- Serialization of the `delivery_statuses` dict stored under the
`channel_statuses` key of `delivery_info` (the source stores the dict value
itself; `delivery_info` is string-valued here, so it is rendered). -/
def channel_statuses_entry (ds : List (String × String)) : String :=
  String.intercalate "," (ds.map (fun p => p.1 ++ "=" ++ p.2))

/-- Modelled from the spec: the final-status step of `send_notification` in
`app.py` (lines 169–174) — compute the final status from the per-channel
outcome map and record it on the notification via `update_status`, merging
`channel_statuses` (and, per §4.5, `partial = true` for a mixed outcome)
into `delivery_info`. -/
def send_notification_finalize (n : Notification)
    (delivery_statuses : List (String × String)) (now : Nat) :
    Notification × Option String :=
  let final := determine_final_status delivery_statuses
  let base := [("channel_statuses", channel_statuses_entry delivery_statuses)]
  let patch := if final.partialFlag then ("partial", "true") :: base else base
  update_status n final.status final.error_message (some patch) now

/-! ### Concrete sample values used by counterexamples and witnesses -/

/-- A freshly created pending notification. -/
def n0 : Notification :=
  ⟨"id-1", "u", NotificationType.transaction_alert, "Title", "Body",
   NotificationStatus.pending, 0, none, none, none, none, []⟩

/-- A push store holding one active iOS token `"T"` for user `"u"` and empty
blacklists. -/
def pushState0 : PushState :=
  ⟨[("u", [⟨"T", "ios", "active"⟩])], [], []⟩

/-- A push store holding one active Android token `"A"` and one active iOS
token `"T"` for user `"u"`. -/
def pushStateMixed : PushState :=
  ⟨[("u", [⟨"A", "android", "active"⟩, ⟨"T", "ios", "active"⟩])], [], []⟩

/-- An APNS provider that rejects every token as invalid. -/
def apnsAllBad : String → ApnsReply := fun _ => ApnsReply.badToken

/-- An APNS provider that accepts every token. -/
def apnsAllOk : String → ApnsReply := fun _ => ApnsReply.delivered

/-- An FCM provider that fails every token. -/
def fcmAllFail : String → Bool := fun _ => false

end FPBE

namespace FPBE

/-! ## Theorems -/

/-- Claim C1: `validate_transition(current, new)` returns true exactly for
the pairs of the fixed table pending→{sent, failed}, sent→{delivered,
failed}, delivered→{read, failed}, read→{failed}; `failed` is terminal with
no outgoing transition. -/
theorem validate_transition_table :
    ∀ c n : NotificationStatus,
      validate_transition c n = true ↔
        (c, n) ∈ ([
          (NotificationStatus.pending, NotificationStatus.sent),
          (NotificationStatus.pending, NotificationStatus.failed),
          (NotificationStatus.sent, NotificationStatus.delivered),
          (NotificationStatus.sent, NotificationStatus.failed),
          (NotificationStatus.delivered, NotificationStatus.read),
          (NotificationStatus.delivered, NotificationStatus.failed),
          (NotificationStatus.read, NotificationStatus.failed)] :
          List (NotificationStatus × NotificationStatus)) := by
  decide

theorem apply_status_effects_status (n : Notification) (st : NotificationStatus)
    (e : Option String) (now : Nat) :
    (apply_status_effects n st e now).status = n.status := by
  unfold apply_status_effects
  split_ifs <;> rfl

theorem apply_delivery_info_status (n : Notification)
    (d : Option (List (String × String))) :
    (apply_delivery_info n d).status = n.status := by
  cases d with
  | none => rfl
  | some d =>
    simp only [apply_delivery_info]
    split_ifs <;> rfl

theorem update_status_invalid (n : Notification) (st : NotificationStatus)
    (e : Option String) (d : Option (List (String × String))) (now : Nat)
    (h : validate_transition n.status st = false) :
    update_status n st e d now = (n, some "InvalidStateTransition") := by
  simp [update_status, h]

theorem update_status_valid (n : Notification) (st : NotificationStatus)
    (e : Option String) (d : Option (List (String × String))) (now : Nat)
    (h : validate_transition n.status st = true) :
    (update_status n st e d now).2 = none ∧
    (update_status n st e d now).1.status = st := by
  constructor
  · simp [update_status, h]
  · simp [update_status, h, apply_delivery_info_status, apply_status_effects_status]

/-- Claim C2: `update_status` applies the new status exactly when the
transition from the current status is valid per the table; otherwise it
fails with `InvalidStateTransition` and the returned notification is the
input itself — every field (status, sent_at, delivered_at, read_at,
error_message, delivery_info) unchanged. -/
theorem update_status_spec (n : Notification) (st : NotificationStatus)
    (e : Option String) (d : Option (List (String × String))) (now : Nat) :
    (validate_transition n.status st = false →
      update_status n st e d now = (n, some "InvalidStateTransition")) ∧
    (validate_transition n.status st = true →
      (update_status n st e d now).2 = none ∧
      (update_status n st e d now).1.status = st) :=
  ⟨update_status_invalid n st e d now, update_status_valid n st e d now⟩

/-- Witness for C2: a pending notification rejects pending→delivered
untouched and accepts pending→sent. -/
theorem update_status_spec_witness :
    update_status n0 NotificationStatus.delivered none none 0 =
      (n0, some "InvalidStateTransition") ∧
    (update_status n0 NotificationStatus.sent none none 0).1.status =
      NotificationStatus.sent :=
  ⟨(update_status_spec n0 NotificationStatus.delivered none none 0).1 rfl,
   ((update_status_spec n0 NotificationStatus.sent none none 0).2 rfl).2⟩

/-! ### Rate limiter lemmas -/

theorem acquire_state_eq (s : RateLimiter) (now : Nat) :
    (acquire s now).2 = { s with requests := (acquire s now).2.requests } := by
  simp only [acquire]
  split_ifs <;> rfl

theorem acquire_requests_of_true (s : RateLimiter) (now : Nat)
    (h : (acquire s now).1 = true) :
    (acquire s now).2.requests =
      s.requests.filter (fun ts => now - ts ≤ s.window_size) ++ [now] := by
  revert h
  simp only [acquire]
  split_ifs <;> simp

theorem acquire_requests_of_false (s : RateLimiter) (now : Nat)
    (h : (acquire s now).1 = false) :
    (acquire s now).2.requests =
      s.requests.filter (fun ts => now - ts ≤ s.window_size) := by
  revert h
  simp only [acquire]
  split_ifs <;> simp

theorem acquire_eq_of_full (s : RateLimiter) (now : Nat)
    (h : s.max_per_hour ≤
      (s.requests.filter (fun ts => now - ts ≤ s.window_size)).length) :
    acquire s now =
      (false, { s with requests :=
        s.requests.filter (fun ts => now - ts ≤ s.window_size) }) := by
  simp only [acquire]
  rw [if_pos h]

theorem acquire_eq_of_room (s : RateLimiter) (now : Nat)
    (h1 : (s.requests.filter (fun ts => now - ts ≤ s.window_size)).length <
      s.max_per_hour)
    (h2 : (s.requests.filter (fun ts => now - ts ≤ s.window_size)).length -
      ((s.requests.filter (fun ts => now - ts ≤ s.window_size)).filter
        (fun ts => now - ts ≤ 60)).length < s.max_burst) :
    acquire s now =
      (true, { s with requests :=
        s.requests.filter (fun ts => now - ts ≤ s.window_size) ++ [now] }) := by
  simp only [acquire]
  rw [if_neg (Nat.not_le.mpr h1), if_neg (Nat.not_le.mpr h2)]

/-- Claim C10: a denied `acquire()` call appends no timestamp — every entry
recorded after a denial was already recorded before it — and the timestamp
sequence gains the current timestamp exactly on calls that return true. -/
theorem acquire_denied_records_nothing (s : RateLimiter) (now : Nat) :
    ((acquire s now).1 = false →
      ∀ t ∈ (acquire s now).2.requests, t ∈ s.requests) ∧
    ((acquire s now).1 = true →
      (acquire s now).2.requests =
        s.requests.filter (fun ts => now - ts ≤ s.window_size) ++ [now]) := by
  constructor
  · intro h t ht
    rw [acquire_requests_of_false s now h] at ht
    exact List.mem_of_mem_filter ht
  · exact acquire_requests_of_true s now

/-- Witness for C10: a full limiter denies and keeps only previously recorded
entries; an empty limiter allows and records exactly the call time. -/
theorem acquire_denied_records_nothing_witness :
    (∀ t ∈ (acquire ⟨0, 0, 3600, [7]⟩ 10).2.requests,
      t ∈ (⟨0, 0, 3600, [7]⟩ : RateLimiter).requests) ∧
    (acquire ⟨5, 5, 3600, []⟩ 10).2.requests =
      (⟨5, 5, 3600, []⟩ : RateLimiter).requests.filter
        (fun ts => 10 - ts ≤ 3600) ++ [10] :=
  ⟨(acquire_denied_records_nothing ⟨0, 0, 3600, [7]⟩ 10).1 rfl,
   (acquire_denied_records_nothing ⟨5, 5, 3600, []⟩ 10).2 rfl⟩

/-- Claim C5: for a limiter with `max_per_window = 5` and
`window_seconds = 3600` (and any burst parameter of at least one, which the
constructor requires), after five allowed `acquire()` calls a sixth call
within the same trailing window returns false, and once all recorded
timestamps are older than the window a further call returns true again. -/
theorem rate_limiter_window_exhaustion (mb t1 t2 t3 t4 t5 t6 t7 : Nat)
    (hmb : 1 ≤ mb)
    (h12 : t1 ≤ t2) (h23 : t2 ≤ t3) (h34 : t3 ≤ t4) (h45 : t4 ≤ t5)
    (h56 : t5 ≤ t6) (hwin : t6 ≤ t1 + 3600) (hreset : t5 + 3600 < t7)
    (hallowed : (acquireSeq ⟨5, mb, 3600, []⟩ [t1, t2, t3, t4, t5]).1 =
      [true, true, true, true, true]) :
    (acquire (acquireSeq ⟨5, mb, 3600, []⟩ [t1, t2, t3, t4, t5]).2 t6).1 =
      false ∧
    (acquire (acquire
      (acquireSeq ⟨5, mb, 3600, []⟩ [t1, t2, t3, t4, t5]).2 t6).2 t7).1 =
      true := by
  simp only [acquireSeq, List.cons.injEq, and_true] at hallowed
  obtain ⟨h1, h2, h3, h4, h5⟩ := hallowed
  have E1 : (acquire (⟨5, mb, 3600, []⟩ : RateLimiter) t1).2 =
      ⟨5, mb, 3600, [t1]⟩ := by
    rw [acquire_state_eq, acquire_requests_of_true _ _ h1]
    rfl
  rw [E1] at h2 h3 h4 h5
  have E2 : (acquire (⟨5, mb, 3600, [t1]⟩ : RateLimiter) t2).2 =
      ⟨5, mb, 3600, [t1, t2]⟩ := by
    rw [acquire_state_eq, acquire_requests_of_true _ _ h2]
    simp only [List.filter_cons, List.filter_nil, decide_eq_true_eq]
    rw [if_pos (show t2 - t1 ≤ 3600 by omega)]
    rfl
  rw [E2] at h3 h4 h5
  have E3 : (acquire (⟨5, mb, 3600, [t1, t2]⟩ : RateLimiter) t3).2 =
      ⟨5, mb, 3600, [t1, t2, t3]⟩ := by
    rw [acquire_state_eq, acquire_requests_of_true _ _ h3]
    simp only [List.filter_cons, List.filter_nil, decide_eq_true_eq]
    rw [if_pos (show t3 - t1 ≤ 3600 by omega),
      if_pos (show t3 - t2 ≤ 3600 by omega)]
    rfl
  rw [E3] at h4 h5
  have E4 : (acquire (⟨5, mb, 3600, [t1, t2, t3]⟩ : RateLimiter) t4).2 =
      ⟨5, mb, 3600, [t1, t2, t3, t4]⟩ := by
    rw [acquire_state_eq, acquire_requests_of_true _ _ h4]
    simp only [List.filter_cons, List.filter_nil, decide_eq_true_eq]
    rw [if_pos (show t4 - t1 ≤ 3600 by omega),
      if_pos (show t4 - t2 ≤ 3600 by omega),
      if_pos (show t4 - t3 ≤ 3600 by omega)]
    rfl
  rw [E4] at h5
  have E5 : (acquire (⟨5, mb, 3600, [t1, t2, t3, t4]⟩ : RateLimiter) t5).2 =
      ⟨5, mb, 3600, [t1, t2, t3, t4, t5]⟩ := by
    rw [acquire_state_eq, acquire_requests_of_true _ _ h5]
    simp only [List.filter_cons, List.filter_nil, decide_eq_true_eq]
    rw [if_pos (show t5 - t1 ≤ 3600 by omega),
      if_pos (show t5 - t2 ≤ 3600 by omega),
      if_pos (show t5 - t3 ≤ 3600 by omega),
      if_pos (show t5 - t4 ≤ 3600 by omega)]
    rfl
  have S : (acquireSeq ⟨5, mb, 3600, []⟩ [t1, t2, t3, t4, t5]).2 =
      (⟨5, mb, 3600, [t1, t2, t3, t4, t5]⟩ : RateLimiter) := by
    simp only [acquireSeq]
    rw [E1, E2, E3, E4, E5]
  have P6 : List.filter (fun ts => decide (t6 - ts ≤ (3600 : Nat)))
      [t1, t2, t3, t4, t5] = [t1, t2, t3, t4, t5] := by
    simp only [List.filter_cons, List.filter_nil, decide_eq_true_eq]
    rw [if_pos (show t6 - t1 ≤ 3600 by omega),
      if_pos (show t6 - t2 ≤ 3600 by omega),
      if_pos (show t6 - t3 ≤ 3600 by omega),
      if_pos (show t6 - t4 ≤ 3600 by omega),
      if_pos (show t6 - t5 ≤ 3600 by omega)]
  have A6 : acquire (⟨5, mb, 3600, [t1, t2, t3, t4, t5]⟩ : RateLimiter) t6 =
      (false, ⟨5, mb, 3600, [t1, t2, t3, t4, t5]⟩) := by
    have full := acquire_eq_of_full (⟨5, mb, 3600, [t1, t2, t3, t4, t5]⟩ :
      RateLimiter) t6 (by
        show 5 ≤ (List.filter (fun ts => decide (t6 - ts ≤ (3600 : Nat)))
          [t1, t2, t3, t4, t5]).length
        rw [P6]
        simp)
    rw [full]
    show (false, (⟨5, mb, 3600,
      List.filter (fun ts => decide (t6 - ts ≤ (3600 : Nat)))
        [t1, t2, t3, t4, t5]⟩ : RateLimiter)) = _
    rw [P6]
  have P7 : List.filter (fun ts => decide (t7 - ts ≤ (3600 : Nat)))
      [t1, t2, t3, t4, t5] = [] := by
    simp only [List.filter_cons, List.filter_nil, decide_eq_true_eq]
    rw [if_neg (show ¬t7 - t1 ≤ 3600 by omega),
      if_neg (show ¬t7 - t2 ≤ 3600 by omega),
      if_neg (show ¬t7 - t3 ≤ 3600 by omega),
      if_neg (show ¬t7 - t4 ≤ 3600 by omega),
      if_neg (show ¬t7 - t5 ≤ 3600 by omega)]
  have A7 : (acquire (⟨5, mb, 3600, [t1, t2, t3, t4, t5]⟩ : RateLimiter)
      t7).1 = true := by
    rw [acquire_eq_of_room _ _ ?h1 ?h2]
    case h1 =>
      show (List.filter (fun ts => decide (t7 - ts ≤ (3600 : Nat)))
        [t1, t2, t3, t4, t5]).length < 5
      rw [P7]
      decide
    case h2 =>
      show (List.filter (fun ts => decide (t7 - ts ≤ (3600 : Nat)))
          [t1, t2, t3, t4, t5]).length -
        (List.filter (fun ts => decide (t7 - ts ≤ (60 : Nat)))
          (List.filter (fun ts => decide (t7 - ts ≤ (3600 : Nat)))
            [t1, t2, t3, t4, t5])).length < mb
      rw [P7]
      simpa using hmb
  refine ⟨?_, ?_⟩
  · rw [S, A6]
  · rw [S, A6]
    exact A7

/-- Witness for C5: five immediate calls are allowed, the sixth shortly after
is denied, and a call past the window is allowed again. -/
theorem rate_limiter_window_exhaustion_witness :
    (acquire (acquireSeq ⟨5, 5, 3600, []⟩ [0, 0, 0, 0, 0]).2 5).1 = false ∧
    (acquire (acquire
      (acquireSeq ⟨5, 5, 3600, []⟩ [0, 0, 0, 0, 0]).2 5).2 3700).1 = true :=
  rate_limiter_window_exhaustion 5 0 0 0 0 0 5 3700 (by decide) (by decide)
    (by decide) (by decide) (by decide) (by decide) (by decide) (by decide)
    (by decide)

/-- Claim C6 (the code contradicts it; §9 of the specification
flags the source arithmetic as defective): with `max_per_hour = 20`,
`max_burst = 5` and five recorded timestamps all inside the 60-second burst
sub-window at `now = 100`, the pruned count (5) is below `max_per_window`
and the count of entries within the last `burst_window_seconds` is 5 ≥
`max_burst`, so the claim requires a denial — but `acquire` subtracts the
recent count from the total (obtaining 0) and allows the request. -/
theorem burst_check_counts_old_entries :
    ((⟨20, 5, 3600, [100, 100, 100, 100, 100]⟩ : RateLimiter).requests.filter
        (fun ts => decide ((100 : Nat) - ts ≤ 3600))).length < 20 ∧
    5 ≤ ((⟨20, 5, 3600, [100, 100, 100, 100, 100]⟩ : RateLimiter).requests.filter
        (fun ts => decide ((100 : Nat) - ts ≤ 60))).length ∧
    (acquire ⟨20, 5, 3600, [100, 100, 100, 100, 100]⟩ 100).1 = true := by
  decide

/-- Claim C4 (refuted): the email sender is not exception-free and does not
classify a rate-limit denial as its own outcome.  A rendering exception
propagates past `send_email` unchanged (the final generic handler re-raises
for the retry decorator), and a rate-limit denial returns the same bare
`False` as an all-provider delivery failure. -/
theorem send_email_escape_counterexample :
    send_email true true (Except.error "TemplateRenderingError") true true =
      Except.error "TemplateRenderingError" ∧
    send_email true false (Except.ok "content") true true =
      send_email true true (Except.ok "content") false false :=
  ⟨rfl, rfl⟩

/-- Claim C4 amended: `send_email` converts an invalid address, a rate-limit
denial and provider failures into a `False` return (a denial is therefore
indistinguishable from a delivery failure), succeeds when SendGrid or the
SMTP fallback succeeds, and re-raises any exception arising between the
rate-limit check and the provider calls (for example from template
rendering) past its own boundary. -/
theorem send_email_outcomes (va ra : Bool) (r : Except String String)
    (sg sm : Bool) :
    (va = false → send_email va ra r sg sm = Except.ok false) ∧
    (va = true → ra = false → send_email va ra r sg sm = Except.ok false) ∧
    (∀ e, va = true → ra = true → r = Except.error e →
      send_email va ra r sg sm = Except.error e) ∧
    (∀ c, va = true → ra = true → r = Except.ok c →
      send_email va ra r sg sm = Except.ok (sg || sm)) := by
  refine ⟨fun h => ?_, fun h1 h2 => ?_, fun e h1 h2 h3 => ?_,
    fun c h1 h2 h3 => ?_⟩ <;> subst_vars
  · simp [send_email]
  · simp [send_email]
  · simp [send_email]
  · cases sg <;> cases sm <;> simp [send_email]

/-- Witness for the amended C4: each classified path at a concrete input. -/
theorem send_email_outcomes_witness :
    send_email false true (Except.ok "c") true true = Except.ok false ∧
    send_email true false (Except.ok "c") true true = Except.ok false ∧
    send_email true true (Except.error "boom") true true =
      Except.error "boom" ∧
    send_email true true (Except.ok "c") false true =
      Except.ok (false || true) :=
  ⟨(send_email_outcomes false true (Except.ok "c") true true).1 rfl,
   (send_email_outcomes true false (Except.ok "c") true true).2.1 rfl rfl,
   (send_email_outcomes true true (Except.error "boom") true true).2.2.1
     "boom" rfl rfl rfl,
   (send_email_outcomes true true (Except.ok "c") false true).2.2.2
     "c" rfl rfl rfl⟩

/-- Claim C9: rendering a template that references a variable absent from the
sanitized context raises (the `StrictUndefined` handler) instead of
substituting empty text. -/
theorem render_strict_undefined (ctx : List (String × CtxValue))
    (tmpl : List TemplatePart) (v : String)
    (hv : TemplatePart.var v ∈ tmpl)
    (habs : ∀ kv ∈ sanitize_context ctx, ¬kv.1 = v) :
    ∃ e, render_template ctx tmpl = Except.error e := by
  have key : ∀ (s : List (String × CtxValue)) (tl : List TemplatePart),
      TemplatePart.var v ∈ tl → (∀ kv ∈ s, ¬kv.1 = v) →
      ∃ e, render_parts s tl = Except.error e := by
    intro s tl
    induction tl with
    | nil => intro hmem _; exact absurd hmem (List.not_mem_nil _)
    | cons hd rest ih =>
      intro hmem hab
      cases hd with
      | lit str =>
        have hv' : TemplatePart.var v ∈ rest := by
          rcases List.mem_cons.mp hmem with h | h
          · exact absurd h (by simp)
          · exact h
        obtain ⟨e, he⟩ := ih hv' hab
        refine ⟨e, ?_⟩
        simp only [render_parts, he]
        rfl
      | var w =>
        by_cases hw : w = v
        · subst hw
          have hnone : s.find? (fun kv => kv.1 == w) = none := by
            rw [List.find?_eq_none]
            intro kv hkv
            simpa using hab kv hkv
          exact ⟨"Undefined template variable: " ++ w,
            by simp [render_parts, hnone]⟩
        · cases hfind : s.find? (fun kv => kv.1 == w) with
          | none =>
            exact ⟨"Undefined template variable: " ++ w,
              by simp [render_parts, hfind]⟩
          | some kv =>
            have hv' : TemplatePart.var v ∈ rest := by
              rcases List.mem_cons.mp hmem with h | h
              · injection h with h
                exact absurd h.symm hw
              · exact h
            obtain ⟨e, he⟩ := ih hv' hab
            refine ⟨e, ?_⟩
            simp only [render_parts, hfind, he]
            rfl
  exact key (sanitize_context ctx) tmpl hv habs

/-- Witness for C9: a template referencing `amount` with a context that lacks
it renders to an error. -/
theorem render_strict_undefined_witness :
    ∃ e, render_template [("name", CtxValue.str "x")]
      [TemplatePart.var "amount"] = Except.error e :=
  render_strict_undefined [("name", CtxValue.str "x")]
    [TemplatePart.var "amount"] "amount" (by decide) (by decide)

theorem dict_get_dict_set (d : List (String × String)) (k v : String) :
    dict_get (dict_set d k v) k = some v := by
  induction d with
  | nil => simp [dict_set, dict_get, List.find?]
  | cons p d ih =>
    simp only [dict_set]
    split_ifs with h
    · simp [dict_get, List.find?]
    · simpa [dict_get, List.find?, h] using ih

theorem apply_status_effects_delivery_info (n : Notification)
    (st : NotificationStatus) (e : Option String) (now : Nat) :
    (apply_status_effects n st e now).delivery_info = n.delivery_info := by
  unfold apply_status_effects
  split_ifs <;> rfl

theorem update_status_delivery_info_of_valid (n : Notification)
    (st : NotificationStatus) (e : Option String)
    (d : List (String × String)) (now : Nat)
    (hvt : validate_transition n.status st = true)
    (hd : d.isEmpty = false) :
    (update_status n st e (some d) now).1.delivery_info =
      dict_update n.delivery_info d := by
  simp [update_status, hvt, apply_delivery_info, hd,
    apply_status_effects_delivery_info]

/-- Claim C3 (modelled from the spec, as `determine_final_status` is a stub
in `app.py`): on a non-empty per-channel outcome map, all-success yields
`sent` with no partial flag, mixed success and failure yields `sent` with
the partial flag, all-failure yields `failed` with a non-empty aggregated
error message; and the orchestrator records this status and the outcome map
on the notification through `update_status`. -/
theorem determine_final_status_spec (ds : List (String × String))
    (n : Notification) (now : Nat)
    (hne : ds ≠ []) (hp : n.status = NotificationStatus.pending) :
    (ds.all (fun o => o.2 == "sent") = true →
      determine_final_status ds = ⟨NotificationStatus.sent, false, none⟩) ∧
    (ds.all (fun o => o.2 == "sent") = false →
      ds.any (fun o => o.2 == "sent") = true →
      (determine_final_status ds).status = NotificationStatus.sent ∧
      (determine_final_status ds).partialFlag = true) ∧
    (ds.all (fun o => !(o.2 == "sent")) = true →
      (determine_final_status ds).status = NotificationStatus.failed ∧
      ∃ m, (determine_final_status ds).error_message = some m ∧ m ≠ "") ∧
    ((send_notification_finalize n ds now).2 = none ∧
     (send_notification_finalize n ds now).1.status =
       (determine_final_status ds).status ∧
     dict_get (send_notification_finalize n ds now).1.delivery_info
       "channel_statuses" = some (channel_statuses_entry ds)) := by
  have hvt : validate_transition n.status (determine_final_status ds).status =
      true := by
    have hst : (determine_final_status ds).status = NotificationStatus.sent ∨
        (determine_final_status ds).status = NotificationStatus.failed := by
      simp only [determine_final_status]
      split_ifs <;> simp
    rcases hst with h | h <;> rw [hp, h] <;> rfl
  refine ⟨fun h => ?_, fun h1 h2 => ?_, fun h => ?_, ?_⟩
  · simp [determine_final_status, h]
  · simp [determine_final_status, h1, h2]
  · have hall : ds.all (fun o => o.2 == "sent") = false := by
      cases ds with
      | nil => exact absurd rfl hne
      | cons a l =>
        simp only [List.all_cons, Bool.and_eq_true, Bool.not_eq_true'] at h
        simp [List.all_cons, h.1]
    have hany : ds.any (fun o => o.2 == "sent") = false := by
      rw [List.any_eq_false]
      intro x hx
      have := List.all_eq_true.mp h x hx
      simpa using this
    refine ⟨by simp [determine_final_status, hall, hany], ?_⟩
    refine ⟨"All channels failed: " ++
      String.intercalate ", " (ds.map (fun o => o.1)), ?_, ?_⟩
    · simp [determine_final_status, hall, hany]
    · intro hempty
      have := congrArg String.data hempty
      rw [String.data_append] at this
      simp at this
  · have hfin : send_notification_finalize n ds now =
        update_status n (determine_final_status ds).status
          (determine_final_status ds).error_message
          (some (if (determine_final_status ds).partialFlag then
            ("partial", "true") ::
              [("channel_statuses", channel_statuses_entry ds)]
            else [("channel_statuses", channel_statuses_entry ds)])) now := by
      simp only [send_notification_finalize]
    refine ⟨?_, ?_, ?_⟩
    · rw [hfin]
      exact (update_status_valid _ _ _ _ _ hvt).1
    · rw [hfin]
      exact (update_status_valid _ _ _ _ _ hvt).2
    · rw [hfin]
      cases hflag : (determine_final_status ds).partialFlag with
      | false =>
        rw [if_neg Bool.false_ne_true]
        have hd : ([("channel_statuses", channel_statuses_entry ds)] :
          List (String × String)).isEmpty = false := rfl
        rw [update_status_delivery_info_of_valid _ _ _ _ _ hvt hd]
        exact dict_get_dict_set _ _ _
      | true =>
        rw [if_pos rfl]
        have hd : (("partial", "true") ::
          [("channel_statuses", channel_statuses_entry ds)] :
          List (String × String)).isEmpty = false := rfl
        rw [update_status_delivery_info_of_valid _ _ _ _ _ hvt hd]
        exact dict_get_dict_set _ _ _

/-- Witness for C3: a mixed outcome map on a pending notification is
classified `sent` with the partial flag, and the outcome map is recorded
under `channel_statuses`. -/
theorem determine_final_status_spec_witness :
    ((determine_final_status [("push", "sent"), ("email", "failed")]).status =
       NotificationStatus.sent ∧
     (determine_final_status
       [("push", "sent"), ("email", "failed")]).partialFlag = true) ∧
    dict_get (send_notification_finalize n0
        [("push", "sent"), ("email", "failed")] 0).1.delivery_info
      "channel_statuses" =
      some (channel_statuses_entry [("push", "sent"), ("email", "failed")]) :=
  ⟨(determine_final_status_spec [("push", "sent"), ("email", "failed")] n0 0
      (by decide) rfl).2.1 (by decide) (by decide),
   (determine_final_status_spec [("push", "sent"), ("email", "failed")] n0 0
      (by decide) rfl).2.2.2.2.2⟩

/-- Claim C7 (refuted): a provider-invalidated token is blacklisted, but the
send path never consults the blacklist, so the token is attempted again by a
later notification to the same user.  With one active iOS token `"T"` and a
provider rejecting every token as invalid, the first send blacklists `"T"`,
yet the token selection for the next send still yields `"T"` and the second
`_send_apns` call attempts (and fails) it again. -/
theorem blacklisted_token_attempted_again :
    "T" ∈ (push_send_ios pushState0 apnsAllBad "u").2.blacklist_ios ∧
    "T" ∈ select_ios_tokens
      (user_tokens (push_send_ios pushState0 apnsAllBad "u").2 "u") ∧
    (⟨"T", false⟩ : TokenResult) ∈
      (push_send_ios (push_send_ios pushState0 apnsAllBad "u").2
        apnsAllBad "u").1 := by
  decide

theorem send_apns_blacklist_mono (p : String → ApnsReply) (ts : List String)
    (bl : List String) (x : String) (h : x ∈ bl) :
    x ∈ (send_apns bl p ts).2.1 := by
  induction ts generalizing bl with
  | nil => simpa [send_apns] using h
  | cons t ts ih =>
    simp only [send_apns, send_apns_token]
    cases p t
    · exact ih bl h
    · exact ih (t :: bl) (List.mem_cons_of_mem t h)
    · exact ih bl h

theorem send_apns_badtoken_blacklists (provider : String → ApnsReply)
    (t : String) (hbad : provider t = ApnsReply.badToken) :
    ∀ (tokens bl : List String), t ∈ tokens →
      t ∈ (send_apns bl provider tokens).2.1 := by
  intro tokens
  induction tokens with
  | nil => intro bl hmem; exact absurd hmem (List.not_mem_nil t)
  | cons a ts ih =>
    intro bl hmem
    rcases List.mem_cons.mp hmem with rfl | hmem'
    · simp only [send_apns, send_apns_token, hbad]
      exact send_apns_blacklist_mono provider ts _ t (List.mem_cons_self t bl)
    · simp only [send_apns, send_apns_token]
      cases hpa : provider a
      · exact ih bl hmem'
      · exact ih (a :: bl) hmem'
      · exact ih bl hmem'

/-- Claim C7 amended: the blacklist produced by a `BadDeviceToken` response
does block that token — but only from re-registration: `register_device`
refuses a blacklisted token and leaves the store unchanged, and any
`_send_apns` call over a token list containing a token the provider reports
invalid ends with that token blacklisted; already-registered tokens are not
filtered against the blacklist on the send path. -/
theorem blacklist_blocks_reregistration (st : PushState) (u t : String)
    (h : t ∈ st.blacklist_ios) :
    register_device st u t "ios" = (false, st) ∧
    ∀ (provider : String → ApnsReply) (tokens : List String),
      t ∈ tokens → provider t = ApnsReply.badToken →
      t ∈ (send_apns st.blacklist_ios provider tokens).2.1 := by
  constructor
  · have hc : st.blacklist_ios.contains t = true := by simpa using h
    simp [register_device, hc, h]
  · intro provider tokens hmem hbad
    exact send_apns_badtoken_blacklists provider t hbad tokens
      st.blacklist_ios hmem

/-- Witness for the amended C7: with `"T"` blacklisted, re-registration is
refused with the store unchanged, and a send over `["T"]` with a
rejecting provider keeps `"T"` blacklisted. -/
theorem blacklist_blocks_reregistration_witness :
    register_device ⟨[("u", [⟨"T", "ios", "active"⟩])], ["T"], []⟩
      "u" "T" "ios" =
      (false, ⟨[("u", [⟨"T", "ios", "active"⟩])], ["T"], []⟩) ∧
    "T" ∈ (send_apns ["T"] apnsAllBad ["T"]).2.1 :=
  ⟨(blacklist_blocks_reregistration
      ⟨[("u", [⟨"T", "ios", "active"⟩])], ["T"], []⟩ "u" "T" (by decide)).1,
   (blacklist_blocks_reregistration
      ⟨[("u", [⟨"T", "ios", "active"⟩])], ["T"], []⟩ "u" "T" (by decide)).2
     apnsAllBad ["T"] (by decide) rfl⟩

/-- Claim C8 (refuted): the aggregate push outcome is not "success if at
least one token succeeds".  With an active Android token whose FCM delivery
fails and an active iOS token whose APNS delivery succeeds, at least one
token succeeds (the APNS leg reports `⟨"T", true⟩`), yet
`send_notification` conjoins the per-platform successes, returns failure,
and marks the notification `failed`; no partial flag exists. -/
theorem push_aggregate_not_any_success :
    (send_notification_push pushStateMixed fcmAllFail apnsAllOk n0 0).1 =
      false ∧
    (send_notification_push pushStateMixed fcmAllFail apnsAllOk n0 0).2.2.status =
      NotificationStatus.failed ∧
    (⟨"T", true⟩ : TokenResult) ∈
      (send_apns pushStateMixed.blacklist_ios apnsAllOk
        (select_ios_tokens (user_tokens pushStateMixed "u"))).1 := by
  decide

/-- Claim C8 amended: per platform the aggregate is success iff at least one
token of the batch for that platform succeeds (`any`-semantics inside
`_send_apns`), but the overall outcome of `send_notification` is the
conjunction over the platforms that have active tokens — one wholly failed
platform makes the whole send a failure even when tokens of the other
platform succeeded, and a mixed result carries no partial flag. -/
theorem push_aggregate_semantics (bl : List String) (p : String → ApnsReply)
    (ts : List String) (st : PushState) (fp : String → Bool)
    (ap : String → ApnsReply) (n : Notification) (now : Nat) :
    (send_apns bl p ts).2.2 = ts.any (apns_delivered p) ∧
    (user_tokens st n.user_id ≠ [] →
      (send_notification_push st fp ap n now).1 =
        (((select_android_tokens (user_tokens st n.user_id)).isEmpty ||
          (send_fcm st.blacklist_android fp
            (select_android_tokens (user_tokens st n.user_id))).1) &&
         ((select_ios_tokens (user_tokens st n.user_id)).isEmpty ||
          (send_apns st.blacklist_ios ap
            (select_ios_tokens (user_tokens st n.user_id))).2.2))) := by
  constructor
  · induction ts generalizing bl with
    | nil => simp [send_apns]
    | cons t ts ih =>
      simp only [send_apns, send_apns_token, List.any_cons, apns_delivered]
      cases hpt : p t
      · simp
      · simpa using ih (t :: bl)
      · simpa using ih bl
  · intro h
    have hne : (user_tokens st n.user_id).isEmpty = false := by simpa using h
    by_cases ha : (select_android_tokens (user_tokens st n.user_id)).isEmpty <;>
      by_cases hi : (select_ios_tokens (user_tokens st n.user_id)).isEmpty <;>
        simp only [send_notification_push, hne, ha, hi, Bool.false_eq_true,
          if_false, if_true, Bool.true_or, Bool.true_and, Bool.and_true] <;>
        split_ifs with hs <;>
        simp_all

/-- Witness for the amended C8: the APNS `any`-semantics and the
cross-platform conjunction at the mixed-platform store. -/
theorem push_aggregate_semantics_witness :
    (send_apns [] apnsAllOk ["T", "X"]).2.2 =
      ["T", "X"].any (apns_delivered apnsAllOk) ∧
    (send_notification_push pushStateMixed fcmAllFail apnsAllOk n0 0).1 =
      (((select_android_tokens (user_tokens pushStateMixed "u")).isEmpty ||
        (send_fcm pushStateMixed.blacklist_android fcmAllFail
          (select_android_tokens (user_tokens pushStateMixed "u"))).1) &&
       ((select_ios_tokens (user_tokens pushStateMixed "u")).isEmpty ||
        (send_apns pushStateMixed.blacklist_ios apnsAllOk
          (select_ios_tokens (user_tokens pushStateMixed "u"))).2.2)) :=
  ⟨(push_aggregate_semantics [] apnsAllOk ["T", "X"] pushStateMixed
      fcmAllFail apnsAllOk n0 0).1,
   (push_aggregate_semantics [] apnsAllOk ["T", "X"] pushStateMixed
      fcmAllFail apnsAllOk n0 0).2 (by decide)⟩

end FPBE
